import Mathlib

/-!
Shallow embedding of `src/disposable.h`: a single-slot disposable storage
(`Disposable<T>`) coordinated by a 16-bit atomic state word holding three
flags.  The sequential (single-thread, no interleaving) semantics of each
operation is modelled by pure functions on an explicit record state; the
compare-and-swap of the C++ code is an equality test against the value
loaded immediately before, which in the sequential model is the current
register value.  The bounded-retry CAS loop is additionally modelled with
an adversarial per-attempt outcome so that the attempt budget can be
counted.  The cooperative yield hook `_yield` returns nothing and does not
touch the register, so it is omitted from the state.
-/

namespace DisposableSpec

/-! State masks, disposable.h lines 127-129 (`StateType = uint16_t`, line 120). -/

def STATE_STORAGE_EMPTY_MASK : Nat := 1

def STATE_READ_BLOCK_MASK : Nat := 2

def STATE_WRITE_BLOCK_MASK : Nat := 4

/-- All sixteen bits set: `~mask` on a `uint16_t` value is `mask ^^^ UINT16_MASK`. -/
def UINT16_MASK : Nat := 65535

/-- Disposable.h lines 131-133: `orig & (~mask)` on the 16-bit state word. -/
def _clear_state_mask (orig mask : Nat) : Nat := orig &&& (mask ^^^ UINT16_MASK)

/-- Disposable.h lines 135-137: `orig | mask`. -/
def _set_state_mask (orig mask : Nat) : Nat := orig ||| mask

/-! Register-level transitions.  Each C++ claim/release computes `expected`
from a fresh load of `_state` and `desired` from `expected`, then performs a
CAS.  Sequentially the register cannot change between that load and the CAS,
so one CAS decides the operation (every retry of the loops at lines 148-160
and 183-194 recomputes the same `expected` and fails or succeeds alike); the
boolean result is the CAS outcome. -/

/-- Disposable.h lines 140-163: claim-for-read.  `expected` is the load with
`WRITE_BLOCK` and `EMPTY` cleared, `desired` sets `READ_BLOCK` on it; the CAS
succeeds iff the register equals `expected`. -/
def _try_block_for_read_state (s : Nat) : Bool × Nat :=
  let expected := _clear_state_mask s (STATE_WRITE_BLOCK_MASK ||| STATE_STORAGE_EMPTY_MASK)
  let desired := _set_state_mask expected STATE_READ_BLOCK_MASK
  if s = expected then (true, desired) else (false, s)

/-- Disposable.h lines 176-197: claim-for-write.  `expected` is the load with
`READ_BLOCK` cleared, `desired` sets `WRITE_BLOCK` on it. -/
def _try_block_for_write_state (s : Nat) : Bool × Nat :=
  let expected := _clear_state_mask s STATE_READ_BLOCK_MASK
  let desired := _set_state_mask expected STATE_WRITE_BLOCK_MASK
  if s = expected then (true, desired) else (false, s)

/-- Disposable.h lines 166-173: release-after-read.  `expected` is the plain
load, `desired` clears `READ_BLOCK` and sets `EMPTY`; the returned boolean is
the CAS outcome `rc` checked by `assert(rc && "Invalid read lock")`. -/
def _unblock_after_read_state (s : Nat) : Bool × Nat :=
  let expected := s
  let desired := _set_state_mask (_clear_state_mask expected STATE_READ_BLOCK_MASK)
      STATE_STORAGE_EMPTY_MASK
  if s = expected then (true, desired) else (false, s)

/-- Disposable.h lines 200-206: release-after-write.  `expected` is the plain
load, `desired` clears `WRITE_BLOCK` and `EMPTY`; the returned boolean is the
CAS outcome `rc` checked by `assert(rc && "Invalid write lock")`. -/
def _unblock_after_write_state (s : Nat) : Bool × Nat :=
  let expected := s
  let desired := _clear_state_mask expected (STATE_WRITE_BLOCK_MASK ||| STATE_STORAGE_EMPTY_MASK)
  if s = expected then (true, desired) else (false, s)

/-- The slot: payload storage plus the atomic state word (disposable.h
lines 122-124). -/
structure Disposable (T : Type) where
  _storage : T
  _state : Nat

variable {T : Type}

/-- Disposable.h line 67: the constructor sets `_state` to
`STATE_STORAGE_EMPTY_MASK`; `_storage` is default-initialized in C++, modelled
by an arbitrary initial payload `t0`. -/
def mkDisposable (t0 : T) : Disposable T :=
  { _storage := t0, _state := STATE_STORAGE_EMPTY_MASK }

/-- Disposable.h lines 140-163 lifted to the slot: only the state word moves. -/
def _try_block_for_read (d : Disposable T) : Bool × Disposable T :=
  let r := _try_block_for_read_state d._state
  (r.1, { d with _state := r.2 })

/-- Disposable.h lines 176-197 lifted to the slot. -/
def _try_block_for_write (d : Disposable T) : Bool × Disposable T :=
  let r := _try_block_for_write_state d._state
  (r.1, { d with _state := r.2 })

/-- Disposable.h lines 166-173 lifted to the slot; the boolean is the
assertion condition `rc`. -/
def _unblock_after_read_and_empty_storage (d : Disposable T) : Bool × Disposable T :=
  let r := _unblock_after_read_state d._state
  (r.1, { d with _state := r.2 })

/-- Disposable.h lines 200-206 lifted to the slot; the boolean is the
assertion condition `rc`. -/
def _unblock_after_write_and_fill_storage (d : Disposable T) : Bool × Disposable T :=
  let r := _unblock_after_write_state d._state
  (r.1, { d with _state := r.2 })

/-- Disposable.h lines 89-99: on a successful read claim, copy `_storage`
into `ret`, release-as-empty, return `true`; otherwise return `false` with
`ret` unchanged.  The out-parameter is modelled by returning its new value as
the third component. -/
def try_read_into (d : Disposable T) (ret : T) : Bool × Disposable T × T :=
  let r := _try_block_for_read d
  if r.1 then
    let ret2 := r.2._storage
    let r2 := _unblock_after_read_and_empty_storage r.2
    (true, r2.2, ret2)
  else
    (false, r.2, ret)

/-- Disposable.h lines 107-117: on a successful write claim, copy `v` into
`_storage`, release-as-full, return `true`; otherwise return `false`. -/
def try_put (d : Disposable T) (v : T) : Bool × Disposable T :=
  let r := _try_block_for_write d
  if r.1 then
    let d2 : Disposable T := { r.2 with _storage := v }
    let r2 := _unblock_after_write_and_fill_storage d2
    (true, r2.2)
  else
    (false, r.2)

/-- A `ReadLock` handle together with its host slot (disposable.h
lines 24-65): `_ptr` records whether the handle's pointer is non-null,
i.e. targets `&_host._storage`. -/
structure ReadLockSys (T : Type) where
  host : Disposable T
  _ptr : Bool

/-- Disposable.h lines 70-72: `get_lock` returns an unlocked handle
(constructor at line 35 with `try_lock = false`, `_ptr = nullptr`). -/
def get_lock (d : Disposable T) : ReadLockSys T :=
  { host := d, _ptr := false }

/-- Disposable.h lines 45-51: `ReadLock::try_lock` claims for read; on
success `_ptr` is set to `&_host._storage`; the return value is the pointer
converted to `bool`. -/
def ReadLock.try_lock (s : ReadLockSys T) : Bool × ReadLockSys T :=
  let r := _try_block_for_read s.host
  let p := if r.1 then true else s._ptr
  (p, { host := r.2, _ptr := p })

/-- Disposable.h lines 53-58: `ReadLock::unlock` releases and clears `_ptr`
when it is non-null, otherwise does nothing.  The boolean is the release
assertion condition (`true` when no assertion fires). -/
def ReadLock.unlock (s : ReadLockSys T) : Bool × ReadLockSys T :=
  if s._ptr then
    let r := _unblock_after_read_and_empty_storage s.host
    (r.1, { host := r.2, _ptr := false })
  else
    (true, s)

/-- Disposable.h line 60: `is_locked` is the pointer converted to `bool`. -/
def ReadLock.is_locked (s : ReadLockSys T) : Bool := s._ptr

/-- Disposable.h line 61: `read` returns the pointer; `some` models a
non-null pointer to the host storage, `none` a null pointer. -/
def ReadLock.read (s : ReadLockSys T) : Option T :=
  if s._ptr then some s.host._storage else none

/-- Disposable.h lines 78-80: `try_lock()` on the slot builds a handle with
an immediate claim attempt (constructor at line 35 with `try_lock = true`). -/
def Disposable.try_lock (d : Disposable T) : ReadLockSys T :=
  (ReadLock.try_lock (get_lock d)).2

/-- The slot operations a single sequential client can perform: the two
facade calls and the two handle calls. -/
inductive Op (T : Type) where
  | put (v : T)
  | readInto (out : T)
  | lockTryLock
  | lockUnlock

/-- One sequential operation applied to the slot-plus-handle system. -/
def step (s : ReadLockSys T) : Op T → ReadLockSys T
  | Op.put v => { s with host := (try_put s.host v).2 }
  | Op.readInto out => { s with host := (try_read_into s.host out).2.1 }
  | Op.lockTryLock => (ReadLock.try_lock s).2
  | Op.lockUnlock => (ReadLock.unlock s).2

/-- Freshly constructed slot with an unlocked handle. -/
def initSys (t0 : T) : ReadLockSys T :=
  { host := mkDisposable t0, _ptr := false }

/-- Run a sequence of operations from the initial state. -/
def runOps (t0 : T) (ops : List (Op T)) : ReadLockSys T :=
  ops.foldl step (initSys t0)

/-! The bounded-retry CAS loop of `_try_block_for_read` (lines 145-161) and
`_try_block_for_write` (lines 180-194), with the outcome of each CAS attempt
left adversarial (`attempt k` is whether the k-th CAS succeeds, which under
interleaving depends on what the other thread did to the register):

    unsigned retries_left = BLOCK_RETRIES;
    do { ret = CAS; if (ret) break; yield; reload; } while (retries_left-- != 0);

The second component counts the CAS attempts performed. -/

def cas_claim_loop (attempt : Nat → Bool) : Nat → Nat → Bool × Nat
  | retries_left, k =>
    if attempt k then
      (true, k + 1)
    else
      match retries_left with
      | 0 => (false, k + 1)
      | r + 1 => cas_claim_loop attempt r (k + 1)

/-- A whole claim operation under retry budget `retries` (`BLOCK_RETRIES`,
disposable.h lines 12-17, default 2): result and number of CAS attempts. -/
def claim_attempts (attempt : Nat → Bool) (retries : Nat) : Bool × Nat :=
  cas_claim_loop attempt retries 0


/-! Evaluation tables: the four register transitions and the flag tests on the
eight 3-bit state values, each equation checked against the definitions by
`decide` (which evaluates the 16-bit mask arithmetic). -/

@[simp] lemma read_claim_eval_0 : _try_block_for_read_state 0 = (true, 2) := by decide
@[simp] lemma read_claim_eval_1 : _try_block_for_read_state 1 = (false, 1) := by decide
@[simp] lemma read_claim_eval_2 : _try_block_for_read_state 2 = (true, 2) := by decide
@[simp] lemma read_claim_eval_3 : _try_block_for_read_state 3 = (false, 3) := by decide
@[simp] lemma read_claim_eval_4 : _try_block_for_read_state 4 = (false, 4) := by decide
@[simp] lemma read_claim_eval_5 : _try_block_for_read_state 5 = (false, 5) := by decide
@[simp] lemma read_claim_eval_6 : _try_block_for_read_state 6 = (false, 6) := by decide
@[simp] lemma read_claim_eval_7 : _try_block_for_read_state 7 = (false, 7) := by decide

@[simp] lemma write_claim_eval_0 : _try_block_for_write_state 0 = (true, 4) := by decide
@[simp] lemma write_claim_eval_1 : _try_block_for_write_state 1 = (true, 5) := by decide
@[simp] lemma write_claim_eval_2 : _try_block_for_write_state 2 = (false, 2) := by decide
@[simp] lemma write_claim_eval_3 : _try_block_for_write_state 3 = (false, 3) := by decide
@[simp] lemma write_claim_eval_4 : _try_block_for_write_state 4 = (true, 4) := by decide
@[simp] lemma write_claim_eval_5 : _try_block_for_write_state 5 = (true, 5) := by decide
@[simp] lemma write_claim_eval_6 : _try_block_for_write_state 6 = (false, 6) := by decide
@[simp] lemma write_claim_eval_7 : _try_block_for_write_state 7 = (false, 7) := by decide

@[simp] lemma read_release_eval_0 : _unblock_after_read_state 0 = (true, 1) := by decide
@[simp] lemma read_release_eval_1 : _unblock_after_read_state 1 = (true, 1) := by decide
@[simp] lemma read_release_eval_2 : _unblock_after_read_state 2 = (true, 1) := by decide
@[simp] lemma read_release_eval_3 : _unblock_after_read_state 3 = (true, 1) := by decide
@[simp] lemma read_release_eval_4 : _unblock_after_read_state 4 = (true, 5) := by decide
@[simp] lemma read_release_eval_5 : _unblock_after_read_state 5 = (true, 5) := by decide
@[simp] lemma read_release_eval_6 : _unblock_after_read_state 6 = (true, 5) := by decide
@[simp] lemma read_release_eval_7 : _unblock_after_read_state 7 = (true, 5) := by decide

@[simp] lemma write_release_eval_0 : _unblock_after_write_state 0 = (true, 0) := by decide
@[simp] lemma write_release_eval_1 : _unblock_after_write_state 1 = (true, 0) := by decide
@[simp] lemma write_release_eval_2 : _unblock_after_write_state 2 = (true, 2) := by decide
@[simp] lemma write_release_eval_3 : _unblock_after_write_state 3 = (true, 2) := by decide
@[simp] lemma write_release_eval_4 : _unblock_after_write_state 4 = (true, 0) := by decide
@[simp] lemma write_release_eval_5 : _unblock_after_write_state 5 = (true, 0) := by decide
@[simp] lemma write_release_eval_6 : _unblock_after_write_state 6 = (true, 2) := by decide
@[simp] lemma write_release_eval_7 : _unblock_after_write_state 7 = (true, 2) := by decide

@[simp] lemma and_eval_0_1 : (0 : Nat) &&& 1 = 0 := by decide
@[simp] lemma and_eval_1_1 : (1 : Nat) &&& 1 = 1 := by decide
@[simp] lemma and_eval_2_1 : (2 : Nat) &&& 1 = 0 := by decide
@[simp] lemma and_eval_3_1 : (3 : Nat) &&& 1 = 1 := by decide
@[simp] lemma and_eval_4_1 : (4 : Nat) &&& 1 = 0 := by decide
@[simp] lemma and_eval_5_1 : (5 : Nat) &&& 1 = 1 := by decide
@[simp] lemma and_eval_6_1 : (6 : Nat) &&& 1 = 0 := by decide
@[simp] lemma and_eval_7_1 : (7 : Nat) &&& 1 = 1 := by decide

@[simp] lemma and_eval_0_2 : (0 : Nat) &&& 2 = 0 := by decide
@[simp] lemma and_eval_1_2 : (1 : Nat) &&& 2 = 0 := by decide
@[simp] lemma and_eval_2_2 : (2 : Nat) &&& 2 = 2 := by decide
@[simp] lemma and_eval_3_2 : (3 : Nat) &&& 2 = 2 := by decide
@[simp] lemma and_eval_4_2 : (4 : Nat) &&& 2 = 0 := by decide
@[simp] lemma and_eval_5_2 : (5 : Nat) &&& 2 = 0 := by decide
@[simp] lemma and_eval_6_2 : (6 : Nat) &&& 2 = 2 := by decide
@[simp] lemma and_eval_7_2 : (7 : Nat) &&& 2 = 2 := by decide

@[simp] lemma and_eval_0_4 : (0 : Nat) &&& 4 = 0 := by decide
@[simp] lemma and_eval_1_4 : (1 : Nat) &&& 4 = 0 := by decide
@[simp] lemma and_eval_2_4 : (2 : Nat) &&& 4 = 0 := by decide
@[simp] lemma and_eval_3_4 : (3 : Nat) &&& 4 = 0 := by decide
@[simp] lemma and_eval_4_4 : (4 : Nat) &&& 4 = 4 := by decide
@[simp] lemma and_eval_5_4 : (5 : Nat) &&& 4 = 4 := by decide
@[simp] lemma and_eval_6_4 : (6 : Nat) &&& 4 = 4 := by decide
@[simp] lemma and_eval_7_4 : (7 : Nat) &&& 4 = 4 := by decide

@[simp] lemma and_eval_0_6 : (0 : Nat) &&& 6 = 0 := by decide
@[simp] lemma and_eval_1_6 : (1 : Nat) &&& 6 = 0 := by decide
@[simp] lemma and_eval_2_6 : (2 : Nat) &&& 6 = 2 := by decide
@[simp] lemma and_eval_3_6 : (3 : Nat) &&& 6 = 2 := by decide
@[simp] lemma and_eval_4_6 : (4 : Nat) &&& 6 = 4 := by decide
@[simp] lemma and_eval_5_6 : (5 : Nat) &&& 6 = 4 := by decide
@[simp] lemma and_eval_6_6 : (6 : Nat) &&& 6 = 6 := by decide
@[simp] lemma and_eval_7_6 : (7 : Nat) &&& 6 = 6 := by decide

/-- Any failing run of the retry loop performs one CAS per iteration: the
attempt counter on exit is at most the starting index plus the budget
plus one. -/
lemma cas_claim_loop_le (attempt : Nat → Bool) :
    ∀ r k, (cas_claim_loop attempt r k).2 ≤ k + r + 1 := by
  intro r
  induction r with
  | zero =>
      intro k
      by_cases h : attempt k <;> simp [cas_claim_loop, h]
  | succ n ih =>
      intro k
      by_cases h : attempt k
      · simp [cas_claim_loop, h]
      · have hk := ih (k + 1)
        simp [cas_claim_loop, h] <;> omega

/-- When every CAS attempt has the same outcome (the single-thread case: the
register cannot change between attempts), the loop's result is that outcome,
which justifies modelling each sequential claim by a single register test. -/
lemma cas_claim_loop_const (b : Bool) :
    ∀ r k, (cas_claim_loop (fun _ => b) r k).1 = b := by
  intro r
  induction r with
  | zero => intro k; cases b <;> simp [cas_claim_loop]
  | succ n ih => intro k; cases b <;> simp [cas_claim_loop, ih]

/-- Sequential collapse of the read-claim loop: with the register frozen at
`s`, the loop of lines 145-161 returns exactly the single-CAS result. -/
lemma claim_loop_read_seq (s N : Nat) :
    (cas_claim_loop (fun _ => (_try_block_for_read_state s).1) N 0).1 =
      (_try_block_for_read_state s).1 :=
  cas_claim_loop_const (_try_block_for_read_state s).1 N 0

/-- Sequential collapse of the write-claim loop: with the register frozen at
`s`, the loop of lines 180-194 returns exactly the single-CAS result. -/
lemma claim_loop_write_seq (s N : Nat) :
    (cas_claim_loop (fun _ => (_try_block_for_write_state s).1) N 0).1 =
      (_try_block_for_write_state s).1 :=
  cas_claim_loop_const (_try_block_for_write_state s).1 N 0

/-- The state word only ever holds `EMPTY` (1), `FULL` (0) or `READ_CLAIMED`
(2): the slot's sequential operations never leave any other value. -/
def stateOK (n : Nat) : Prop := n = 0 ∨ n = 1 ∨ n = 2

/-- Each single operation preserves `stateOK` of the state word. -/
lemma step_preserves_stateOK {T : Type} (s : ReadLockSys T) (op : Op T)
    (h : stateOK s.host._state) : stateOK ((step s op).host._state) := by
  obtain ⟨⟨stor, st⟩, p⟩ := s
  have h3 : st = 0 ∨ st = 1 ∨ st = 2 := h
  rcases h3 with h3 | h3 | h3 <;> subst h3 <;>
    cases op <;> cases p <;>
      simp [stateOK, step, ReadLock.try_lock, ReadLock.unlock, try_put, try_read_into, _try_block_for_read, _try_block_for_write,
    _unblock_after_read_and_empty_storage, _unblock_after_write_and_fill_storage,
    mkDisposable, STATE_STORAGE_EMPTY_MASK, STATE_READ_BLOCK_MASK, STATE_WRITE_BLOCK_MASK]

/-- Every state reached from the freshly constructed slot satisfies
`stateOK`. -/
lemma runOps_stateOK {T : Type} (t0 : T) (ops : List (Op T)) :
    stateOK ((runOps t0 ops).host._state) := by
  suffices h : ∀ (l : List (Op T)) (s : ReadLockSys T), stateOK s.host._state →
      stateOK ((l.foldl step s).host._state) by
    exact h ops (initSys t0) (Or.inr (Or.inl rfl))
  intro l
  induction l with
  | nil => intro s hs; simpa using hs
  | cons a l ih => intro s hs; exact ih _ (step_preserves_stateOK s a hs)

/-- C1: on a slot with no claim held by either role (`READ_BLOCKED` and
`WRITE_BLOCKED` both clear in the state word), `try_put v` returns `true`,
and a subsequent `try_read_into` with no intervening claim returns `true`
with the output argument equal to `v` exactly. -/
theorem c1_round_trip {T : Type} (d : Disposable T) (v out : T)
    (h8 : d._state < 8)
    (hq : d._state &&& (STATE_READ_BLOCK_MASK ||| STATE_WRITE_BLOCK_MASK) = 0) :
    (try_put d v).1 = true ∧
    (try_read_into (try_put d v).2 out).1 = true ∧
    (try_read_into (try_put d v).2 out).2.2 = v := by
  obtain ⟨stor, st⟩ := d
  interval_cases st <;> simp_all [try_put, try_read_into, _try_block_for_read, _try_block_for_write,
    _unblock_after_read_and_empty_storage, _unblock_after_write_and_fill_storage,
    mkDisposable, STATE_STORAGE_EMPTY_MASK, STATE_READ_BLOCK_MASK, STATE_WRITE_BLOCK_MASK]

/-- C1 witness: the round trip at the freshly constructed slot over `Nat`
with `v = 10`. -/
theorem c1_round_trip_witness :
    (mkDisposable (0 : Nat))._state < 8 ∧
    (mkDisposable (0 : Nat))._state &&& (STATE_READ_BLOCK_MASK ||| STATE_WRITE_BLOCK_MASK) = 0 ∧
    ((try_put (mkDisposable (0 : Nat)) 10).1 = true ∧
     (try_read_into (try_put (mkDisposable (0 : Nat)) 10).2 5).1 = true ∧
     (try_read_into (try_put (mkDisposable (0 : Nat)) 10).2 5).2.2 = 10) :=
  ⟨by decide, by decide, c1_round_trip (mkDisposable 0) 10 5 (by decide) (by decide)⟩

/-- C2: `try_read_into` on a newly constructed slot returns `false` and
leaves its output argument (and the slot) unmodified, whatever the initial
content of both. -/
theorem c2_fresh_read_fails {T : Type} (t0 out : T) :
    try_read_into (mkDisposable t0) out = (false, mkDisposable t0, out) := by
  simp [try_put, try_read_into, _try_block_for_read, _try_block_for_write,
    _unblock_after_read_and_empty_storage, _unblock_after_write_and_fill_storage,
    mkDisposable, STATE_STORAGE_EMPTY_MASK, STATE_READ_BLOCK_MASK, STATE_WRITE_BLOCK_MASK]

/-- C3: on a slot with no claim held, two consecutive `try_put` calls with no
intervening read both return `true`, and a following `try_read_into` returns
`true` with the value of the second call. -/
theorem c3_overwrite {T : Type} (d : Disposable T) (v1 v2 out : T)
    (h8 : d._state < 8)
    (hq : d._state &&& (STATE_READ_BLOCK_MASK ||| STATE_WRITE_BLOCK_MASK) = 0) :
    (try_put d v1).1 = true ∧
    (try_put (try_put d v1).2 v2).1 = true ∧
    (try_read_into (try_put (try_put d v1).2 v2).2 out).1 = true ∧
    (try_read_into (try_put (try_put d v1).2 v2).2 out).2.2 = v2 := by
  obtain ⟨stor, st⟩ := d
  interval_cases st <;> simp_all [try_put, try_read_into, _try_block_for_read, _try_block_for_write,
    _unblock_after_read_and_empty_storage, _unblock_after_write_and_fill_storage,
    mkDisposable, STATE_STORAGE_EMPTY_MASK, STATE_READ_BLOCK_MASK, STATE_WRITE_BLOCK_MASK]

/-- C3 witness: the overwrite scenario of main.cpp lines 113-122 (`11` then
`12`) at the freshly constructed slot over `Nat`. -/
theorem c3_overwrite_witness :
    (mkDisposable (0 : Nat))._state < 8 ∧
    (mkDisposable (0 : Nat))._state &&& (STATE_READ_BLOCK_MASK ||| STATE_WRITE_BLOCK_MASK) = 0 ∧
    ((try_put (mkDisposable (0 : Nat)) 11).1 = true ∧
     (try_put (try_put (mkDisposable (0 : Nat)) 11).2 12).1 = true ∧
     (try_read_into (try_put (try_put (mkDisposable (0 : Nat)) 11).2 12).2 1).1 = true ∧
     (try_read_into (try_put (try_put (mkDisposable (0 : Nat)) 11).2 12).2 1).2.2 = 12) :=
  ⟨by decide, by decide, c3_overwrite (mkDisposable 0) 11 12 1 (by decide) (by decide)⟩

/-- C4: a successful `try_read_into` leaves the slot in the `EMPTY` state,
and a further `try_read_into` with no intervening `try_put` returns `false`
with its output argument untouched. -/
theorem c4_read_at_most_once {T : Type} (d : Disposable T) (out out2 : T)
    (h8 : d._state < 8) (hs : (try_read_into d out).1 = true) :
    (try_read_into d out).2.1._state = STATE_STORAGE_EMPTY_MASK ∧
    try_read_into (try_read_into d out).2.1 out2 =
      (false, (try_read_into d out).2.1, out2) := by
  obtain ⟨stor, st⟩ := d
  interval_cases st <;> simp_all [try_put, try_read_into, _try_block_for_read, _try_block_for_write,
    _unblock_after_read_and_empty_storage, _unblock_after_write_and_fill_storage,
    mkDisposable, STATE_STORAGE_EMPTY_MASK, STATE_READ_BLOCK_MASK, STATE_WRITE_BLOCK_MASK]

/-- C4 witness: reading a full slot over `Nat` once succeeds, the second read
fails and leaves its output `7` untouched. -/
theorem c4_read_at_most_once_witness :
    ((⟨5, 0⟩ : Disposable Nat))._state < 8 ∧
    (try_read_into (⟨5, 0⟩ : Disposable Nat) 9).1 = true ∧
    ((try_read_into (⟨5, 0⟩ : Disposable Nat) 9).2.1._state = STATE_STORAGE_EMPTY_MASK ∧
     try_read_into (try_read_into (⟨5, 0⟩ : Disposable Nat) 9).2.1 7 =
       (false, (try_read_into (⟨5, 0⟩ : Disposable Nat) 9).2.1, 7)) :=
  ⟨by decide, by decide, c4_read_at_most_once ⟨5, 0⟩ 9 7 (by decide) (by decide)⟩

/-- C5: under retry budget `N` (`BLOCK_RETRIES`), a claim operation that ends
up failing performs at most `N + 1` compare-and-swap attempts before
returning `false`, for every adversarial pattern of attempt outcomes. -/
theorem c5_attempt_budget (attempt : Nat → Bool) (N : Nat)
    (hf : (claim_attempts attempt N).1 = false) :
    (claim_attempts attempt N).2 ≤ N + 1 := by
  have h := cas_claim_loop_le attempt N 0
  simpa [claim_attempts] using h

/-- C5 witness: with every CAS failing and the default budget `2`, the loop
fails after exactly `3 ≤ 2 + 1` attempts. -/
theorem c5_attempt_budget_witness :
    (claim_attempts (fun _ => false) 2).1 = false ∧
    (claim_attempts (fun _ => false) 2).2 ≤ 2 + 1 :=
  ⟨by decide, c5_attempt_budget (fun _ => false) 2 (by decide)⟩

/-- C6: in every state reachable from the initial `EMPTY` state through any
sequence of `try_put`, `try_read_into`, `ReadLock::try_lock` and
`ReadLock::unlock`, the `READ_BLOCKED` and `WRITE_BLOCKED` flags are never
both set: at least one of them is clear. -/
theorem c6_never_both_blocked {T : Type} (t0 : T) (ops : List (Op T)) :
    (runOps t0 ops).host._state &&& STATE_READ_BLOCK_MASK = 0 ∨
    (runOps t0 ops).host._state &&& STATE_WRITE_BLOCK_MASK = 0 := by
  rcases runOps_stateOK t0 ops with h | h | h <;> rw [h] <;>
    first
      | exact Or.inl (by decide)
      | exact Or.inr (by decide)

/-- C7: the claim-for-read transition succeeds exactly when `WRITE_BLOCKED`
and `EMPTY` are both clear; on success the new state has `READ_BLOCKED` set
and `WRITE_BLOCKED` and `EMPTY` clear; on failure the operation returns
`false` with the slot (state and storage) untouched. -/
theorem c7_claim_for_read_transition {T : Type} (d : Disposable T) (h8 : d._state < 8) :
    ((_try_block_for_read d).1 = true ↔
        (d._state &&& STATE_WRITE_BLOCK_MASK = 0 ∧
         d._state &&& STATE_STORAGE_EMPTY_MASK = 0)) ∧
    ((_try_block_for_read d).1 = true →
        ((_try_block_for_read d).2._state &&& STATE_READ_BLOCK_MASK = STATE_READ_BLOCK_MASK ∧
         (_try_block_for_read d).2._state &&& STATE_WRITE_BLOCK_MASK = 0 ∧
         (_try_block_for_read d).2._state &&& STATE_STORAGE_EMPTY_MASK = 0)) ∧
    ((_try_block_for_read d).1 = false → _try_block_for_read d = (false, d)) := by
  obtain ⟨stor, st⟩ := d
  interval_cases st <;>
    simp [_try_block_for_read, STATE_STORAGE_EMPTY_MASK, STATE_READ_BLOCK_MASK,
      STATE_WRITE_BLOCK_MASK]

/-- C7 witness: the transition at the full unclaimed slot (state word `0`)
over `Nat`. -/
theorem c7_claim_for_read_transition_witness :
    ((⟨0, 0⟩ : Disposable Nat))._state < 8 ∧
    (((_try_block_for_read (⟨0, 0⟩ : Disposable Nat)).1 = true ↔
        ((⟨0, 0⟩ : Disposable Nat)._state &&& STATE_WRITE_BLOCK_MASK = 0 ∧
         (⟨0, 0⟩ : Disposable Nat)._state &&& STATE_STORAGE_EMPTY_MASK = 0)) ∧
     ((_try_block_for_read (⟨0, 0⟩ : Disposable Nat)).1 = true →
        ((_try_block_for_read (⟨0, 0⟩ : Disposable Nat)).2._state &&& STATE_READ_BLOCK_MASK =
            STATE_READ_BLOCK_MASK ∧
         (_try_block_for_read (⟨0, 0⟩ : Disposable Nat)).2._state &&& STATE_WRITE_BLOCK_MASK = 0 ∧
         (_try_block_for_read (⟨0, 0⟩ : Disposable Nat)).2._state &&& STATE_STORAGE_EMPTY_MASK =
            0)) ∧
     ((_try_block_for_read (⟨0, 0⟩ : Disposable Nat)).1 = false →
        _try_block_for_read (⟨0, 0⟩ : Disposable Nat) = (false, ⟨0, 0⟩))) :=
  ⟨by decide, c7_claim_for_read_transition ⟨0, 0⟩ (by decide)⟩

/-- C8: the handle's read accessor returns a non-null pointer exactly when
`is_locked()` is `true`; after `unlock()` (also run on scope exit by the
destructor) the pointer is cleared so reads return null; and `unlock()` while
not locked is a no-op that changes neither the slot nor the handle and fires
no assertion. -/
theorem c8_handle_accessor {T : Type} (s : ReadLockSys T) :
    ((ReadLock.read s).isSome = true ↔ ReadLock.is_locked s = true) ∧
    ReadLock.read (ReadLock.unlock s).2 = none ∧
    (ReadLock.is_locked s = false → ReadLock.unlock s = (true, s)) := by
  obtain ⟨⟨stor, st⟩, p⟩ := s
  cases p <;>
    simp [ReadLock.read, ReadLock.is_locked, ReadLock.unlock,
      _unblock_after_read_and_empty_storage, _unblock_after_read_state]

/-- C10: with a `ReadLock` held (state word `READ_BLOCKED`, `EMPTY` and
`WRITE_BLOCKED` clear), `try_read_into` on the same slot still returns
`true` — its claim CAS succeeds on the already-`READ_BLOCKED` word — copies
the storage out and leaves the state `EMPTY`; the outstanding handle's later
`unlock` then completes with its release CAS succeeding (no assertion fires),
leaving the state `EMPTY`. -/
theorem c10_second_read_claim_while_locked {T : Type} (v out : T) :
    try_read_into (⟨v, STATE_READ_BLOCK_MASK⟩ : Disposable T) out =
      (true, ⟨v, STATE_STORAGE_EMPTY_MASK⟩, v) ∧
    ReadLock.unlock (⟨⟨v, STATE_STORAGE_EMPTY_MASK⟩, true⟩ : ReadLockSys T) =
      (true, ⟨⟨v, STATE_STORAGE_EMPTY_MASK⟩, false⟩) := by
  constructor <;>
    simp [try_put, try_read_into, _try_block_for_read, _try_block_for_write,
    _unblock_after_read_and_empty_storage, _unblock_after_write_and_fill_storage,
    mkDisposable, STATE_STORAGE_EMPTY_MASK, STATE_READ_BLOCK_MASK, STATE_WRITE_BLOCK_MASK, ReadLock.unlock]

end DisposableSpec
